import Mathlib

/-
Verification of the starpath astronomical-coordinate core (starpath.js).

The JavaScript number pipeline is embedded over the real numbers: JS `%` is the
truncated remainder `jsRem`-style `mod` below, `Math.atan2 (y, x)` is the angle
of the point `(x, y)` in `(-pi, pi]` (i.e. `Complex.arg`), and `Math.sin`,
`Math.cos`, `Math.asin` are the exact real functions.  A JS `Date` is modelled
by its ECMA-262 time value: an integer count of milliseconds since
1970-01-01T00:00:00Z, with the UTC field accessors defined exactly as the
ECMA-262 abstract operations (Day, HourFromTime, MinFromTime, SecFromTime,
msFromTime, MakeDate/MakeTime).
-/

namespace Starpath

/-- A JavaScript Date value, modelled by its ECMA-262 time value: milliseconds
since the epoch 1970-01-01T00:00:00Z (UTC accessors; getTime returns this). -/
structure JsDate where
  ms : ℤ
deriving DecidableEq

/-- ECMA-262 Day(t) = floor(t / msPerDay), the epoch day number of the date. -/
def dayNumber (d : JsDate) : ℤ := Int.fdiv d.ms 86400000

/-- ECMA-262 HourFromTime(t) = floor(t / msPerHour) modulo HoursPerDay; this is
the getHours accessor used by the source for labels and hour arithmetic. -/
def getHours (d : JsDate) : ℤ := Int.fdiv d.ms 3600000 % 24

/-- ECMA-262 MinFromTime(t) = floor(t / msPerMinute) modulo MinutesPerHour. -/
def minFromTime (d : JsDate) : ℤ := Int.fdiv d.ms 60000 % 60

/-- ECMA-262 SecFromTime(t) = floor(t / msPerSecond) modulo SecondsPerMinute. -/
def secFromTime (d : JsDate) : ℤ := Int.fdiv d.ms 1000 % 60

/-- ECMA-262 msFromTime(t) = t modulo msPerSecond. -/
def msFromTime (d : JsDate) : ℤ := d.ms % 1000

/-- JS setHours(h) with only the hour argument: per ECMA-262 the new time value
is MakeDate(Day(t), MakeTime(h, MinFromTime(t), SecFromTime(t), msFromTime(t))),
so an hour beyond 23 rolls over into the following day. -/
def setHours (d : JsDate) (h : ℤ) : JsDate :=
  ⟨dayNumber d * 86400000 +
    (h * 3600000 + minFromTime d * 60000 + secFromTime d * 1000 + msFromTime d)⟩

/-- The source helper createDateWithHour(baseDate, hour), i.e.
newDate.setHours(hour, 0, 0, 0): per ECMA-262 the new time value is
MakeDate(Day(t), MakeTime(hour, 0, 0, 0)). -/
def createDateWithHour (baseDate : JsDate) (hour : ℤ) : JsDate :=
  ⟨dayNumber baseDate * 86400000 + hour * 3600000⟩

/-- The source pattern nextDay.setDate(nextDay.getDate() + n).  Per ECMA-262,
setDate(dt) sets the time value to
MakeDate(MakeDay(YearFromTime(t), MonthFromTime(t), dt), TimeWithinDay(t));
MakeDay(y, m, dt) equals the day number of the first of month (y, m) plus
dt - 1, hence is linear in dt, and MakeDay at dt = DateFromTime(t) gives back
Day(t).  So the composite shifts the time value by exactly n whole days,
independent of month boundaries. -/
def setDatePlusDays (d : JsDate) (n : ℤ) : JsDate := ⟨d.ms + n * 86400000⟩

/-- The source addTime(amount, date, setter, getter), at the only
setter/getter pair the pipeline under verification uses
(setHours/getHours): newDate.setHours(newDate.getHours() + amount). -/
def addTime (amount : ℤ) (date : JsDate) : JsDate :=
  setHours date (getHours date + amount)

/-- getJulian(date) = date.getTime() / 86400000 + 2440587.5. -/
noncomputable def getJulian (date : JsDate) : ℝ :=
  (date.ms : ℝ) / 86400000 + 2440587.5

/-- sind(deg) = Math.sin(deg * Math.PI / 180). -/
noncomputable def sind (deg : ℝ) : ℝ := Real.sin (deg * Real.pi / 180)

/-- cosd(deg) = Math.cos(deg * Math.PI / 180). -/
noncomputable def cosd (deg : ℝ) : ℝ := Real.cos (deg * Real.pi / 180)

/-- asind(x) = Math.asin(x) * 180 / Math.PI. -/
noncomputable def asind (x : ℝ) : ℝ := Real.arcsin x * 180 / Real.pi

/-- Truncation toward zero, the rounding used by the JS remainder operator. -/
noncomputable def jsTrunc (x : ℝ) : ℤ := if 0 ≤ x then ⌊x⌋ else ⌈x⌉

/-- The source helper mod(a, b) = a % b, the JS (truncated) remainder:
a - b * trunc(a / b), whose sign follows the dividend. -/
noncomputable def mod (a b : ℝ) : ℝ := a - b * (jsTrunc (a / b) : ℝ)

/-- Math.atan2(y, x): the angle of the point (x, y), in (-pi, pi]. -/
noncomputable def atan2 (y x : ℝ) : ℝ := Complex.arg ⟨x, y⟩

/-- The unnormalized GMST polynomial of RaDec2AzEl (seconds of time):
ThetaGMST before the normalization line, as a function of the date. -/
noncomputable def gmstRaw (dateObj : JsDate) : ℝ :=
  let JD := getJulian dateObj
  let T_UT1 := (JD - 2451545) / 36525
  67310.54841 + (876600 * 3600 + 8640184.812866) * T_UT1 +
    0.093104 * T_UT1 ^ 2 - 6.2e-6 * T_UT1 ^ 3

/-- The inner, sign-aware reduction of RaDec2AzEl's GMST normalization:
mod(ThetaGMST, 86400 * (ThetaGMST / Math.abs(ThetaGMST))). -/
noncomputable def gmstFirstReduction (dateObj : JsDate) : ℝ :=
  mod (gmstRaw dateObj) (86400 * (gmstRaw dateObj / |gmstRaw dateObj|))

/-- The normalized GMST of RaDec2AzEl, in degrees:
mod(mod(ThetaGMST, 86400 * sign) / 240, 360). -/
noncomputable def thetaGMST (dateObj : JsDate) : ℝ :=
  mod (gmstFirstReduction dateObj / 240) 360

/-- The record {az, el} returned by RaDec2AzEl. -/
structure AzEl where
  az : ℝ
  el : ℝ

/-- RaDec2AzEl(Ra, Dec, lat, lon, dateObj), transcribed from the source. -/
noncomputable def RaDec2AzEl (Ra Dec lat lon : ℝ) (dateObj : JsDate) : AzEl :=
  let ThetaLST := thetaGMST dateObj + lon
  let LHA := mod (ThetaLST - Ra) 360
  let El := asind (sind lat * sind Dec + cosd lat * cosd Dec * cosd LHA)
  let Az := mod
    (atan2 (-sind LHA * cosd Dec / cosd El)
        ((sind Dec - sind El * sind lat) / (cosd El * cosd lat)) *
      (180 / Real.pi))
    360
  ⟨Az, El⟩

/-- hmsToDeg(h, m, s) = (h + m / 60 + s / 3600) * (15 / 1). -/
noncomputable def hmsToDeg (h m s : ℝ) : ℝ := (h + m / 60 + s / 3600) * (15 / 1)

/-- dmsToDeg(d, m, s) = d + m / 60 + s / 3600. -/
noncomputable def dmsToDeg (d m s : ℝ) : ℝ := d + m / 60 + s / 3600

/-- A celestial object record {ra, dec} in decimal degrees. -/
structure Celestial where
  ra : ℝ
  dec : ℝ

/-- fireworksCelestial: ra = hmsToDeg(20, 35, 25), dec = dmsToDeg(60, 14, 47). -/
noncomputable def fireworksCelestial : Celestial :=
  ⟨hmsToDeg 20 35 25, dmsToDeg 60 14 47⟩

/-- solCelestial: ra = hmsToDeg(13, 42, 32.13), dec = dmsToDeg(-10, 59, 55.2). -/
noncomputable def solCelestial : Celestial :=
  ⟨hmsToDeg 13 42 32.13, dmsToDeg (-10) 59 55.2⟩

/-- An observer location record {lat, lon} in decimal degrees. -/
structure LatLong where
  lat : ℝ
  lon : ℝ

/-- dunstableMAUsaLatLong: lat = dmsToDeg(42, 41, 1), lon = -dmsToDeg(71, 28, 16). -/
noncomputable def dunstableMAUsaLatLong : LatLong :=
  ⟨dmsToDeg 42 41 1, -dmsToDeg 71 28 16⟩

/-- calculatePositionAtTime(date, {ra, dec}) =
RaDec2AzEl(ra, dec, dunstable.lat, dunstable.lon, date). -/
noncomputable def calculatePositionAtTime (date : JsDate) (obj : Celestial) : AzEl :=
  RaDec2AzEl obj.ra obj.dec dunstableMAUsaLatLong.lat dunstableMAUsaLatLong.lon date

/-- generateHourlyDates(startDate): the loop for h = 0 .. 23 pushing
addTime(h, startDate, setHours, getHours). -/
def generateHourlyDates (startDate : JsDate) : List JsDate :=
  (List.range 24).map fun (h : ℕ) => addTime (h : ℤ) startDate

/-- generateNighttimeDates(startDate): the loop for h = 18 .. 23 pushing
addTime(h, startDate), then nextDay = startDate with setDate(getDate() + 1),
then the loop for h = 0 .. 5 pushing addTime(h, nextDay). -/
def generateNighttimeDates (startDate : JsDate) : List JsDate :=
  ((List.range' 18 6).map fun (h : ℕ) => addTime (h : ℤ) startDate) ++
    (List.range 6).map fun (h : ℕ) => addTime (h : ℤ) (setDatePlusDays startDate 1)

/-- generateCustomTimeDates(startDate, startHour, endHour): same-day branch
loops h = startHour .. endHour; the cross-midnight branch loops
h = startHour .. 23 on startDate and then h = 0 .. endHour on the next day,
each sample built by createDateWithHour. -/
def generateCustomTimeDates (startDate : JsDate) (startHour endHour : ℤ) : List JsDate :=
  if startHour ≤ endHour then
    (List.range (endHour - startHour + 1).toNat).map fun (i : ℕ) =>
      createDateWithHour startDate (startHour + (i : ℤ))
  else
    ((List.range (24 - startHour).toNat).map fun (i : ℕ) =>
        createDateWithHour startDate (startHour + (i : ℤ))) ++
      (List.range (endHour + 1).toNat).map fun (i : ℕ) =>
        createDateWithHour (setDatePlusDays startDate 1) (i : ℤ)

/-- generatePositionData(celestialObject, startDate): map
calculatePositionAtTime over generateHourlyDates(startDate). -/
noncomputable def generatePositionData (obj : Celestial) (startDate : JsDate) : List AzEl :=
  (generateHourlyDates startDate).map fun date => calculatePositionAtTime date obj

/-- A time-series sample: the spread of a calculatePositionAtTime result with
the added time field, time = date.getHours(). -/
structure PositionSample where
  az : ℝ
  el : ℝ
  time : ℤ

/-- generateNighttimePositionData(celestialObject, startDate): map over
generateNighttimeDates, pairing each position with time = date.getHours(). -/
noncomputable def generateNighttimePositionData (obj : Celestial) (startDate : JsDate) :
    List PositionSample :=
  (generateNighttimeDates startDate).map fun date =>
    let p := calculatePositionAtTime date obj
    ⟨p.az, p.el, getHours date⟩

/-- generateCustomTimePositionData(celestialObject, startDate, startHour,
endHour): map over generateCustomTimeDates, pairing each position with
time = date.getHours(). -/
noncomputable def generateCustomTimePositionData (obj : Celestial) (startDate : JsDate)
    (startHour endHour : ℤ) : List PositionSample :=
  (generateCustomTimeDates startDate startHour endHour).map fun date =>
    let p := calculatePositionAtTime date obj
    ⟨p.az, p.el, getHours date⟩

/-- Modelled from the spec: the reference algorithm exactly as claim C1 lists
it, written as one inline composition (JD from the instant; T; the GMST
seconds polynomial; the two-step sign-aware normalization; LST; LHA;
Elevation; Azimuth), to be compared against the source-structured
RaDec2AzEl. -/
noncomputable def RaDec2AzElRef (Ra Dec lat lon : ℝ) (dateObj : JsDate) : AzEl :=
  let JD := (dateObj.ms : ℝ) / 86400000 + 2440587.5
  let T := (JD - 2451545) / 36525
  let GMSTsec := 67310.54841 + (876600 * 3600 + 8640184.812866) * T +
    0.093104 * T ^ 2 - 6.2e-6 * T ^ 3
  let GMST := mod (mod GMSTsec (86400 * (GMSTsec / |GMSTsec|)) / 240) 360
  let LST := GMST + lon
  let LHA := mod (LST - Ra) 360
  let El := asind (sind lat * sind Dec + cosd lat * cosd Dec * cosd LHA)
  let Az := mod
    (atan2 (-sind LHA * cosd Dec / cosd El)
        ((sind Dec - sind El * sind lat) / (cosd El * cosd lat)) *
      (180 / Real.pi))
    360
  ⟨Az, El⟩

/-- The simplified GMST normalization of claim C10: reduce the raw value
modulo plain 86400 (no sign-aware divisor) before dividing by 240 and
reducing mod 360. -/
noncomputable def thetaGMSTSimplified (dateObj : JsDate) : ℝ :=
  mod (mod (gmstRaw dateObj) 86400 / 240) 360

/-- The claim-C10 variant of the transform: RaDec2AzEl with the simplified
GMST normalization, otherwise identical. -/
noncomputable def RaDec2AzElSimplified (Ra Dec lat lon : ℝ) (dateObj : JsDate) : AzEl :=
  let ThetaLST := thetaGMSTSimplified dateObj + lon
  let LHA := mod (ThetaLST - Ra) 360
  let El := asind (sind lat * sind Dec + cosd lat * cosd Dec * cosd LHA)
  let Az := mod
    (atan2 (-sind LHA * cosd Dec / cosd El)
        ((sind Dec - sind El * sind lat) / (cosd El * cosd lat)) *
      (180 / Real.pi))
    360
  ⟨Az, El⟩

/-! Helper lemmas: algebra of the JS truncated remainder. -/

lemma jsTrunc_neg (x : ℝ) : jsTrunc (-x) = -jsTrunc x := by
  unfold jsTrunc
  rcases lt_trichotomy x 0 with h | h | h
  · rw [if_pos (by linarith), if_neg (not_le.mpr h), Int.floor_neg]
  · simp [h]
  · rw [if_neg (by simpa using h), if_pos h.le, Int.ceil_neg]

lemma mod_neg_divisor (a b : ℝ) : mod a (-b) = mod a b := by
  unfold mod
  rw [div_neg, jsTrunc_neg]
  push_cast
  ring

lemma mod_neg_left (a b : ℝ) : mod (-a) b = -mod a b := by
  unfold mod
  rw [neg_div, jsTrunc_neg]
  push_cast
  ring

lemma mod_nonneg_bounds (a b : ℝ) (ha : 0 ≤ a) (hb : 0 < b) :
    0 ≤ mod a b ∧ mod a b < b := by
  have hdiv : 0 ≤ a / b := div_nonneg ha hb.le
  unfold mod jsTrunc
  rw [if_pos hdiv]
  have hf1 : ((⌊a / b⌋ : ℝ)) ≤ a / b := Int.floor_le _
  have hf2 : a / b < (⌊a / b⌋ : ℝ) + 1 := Int.lt_floor_add_one _
  have h1 : (⌊a / b⌋ : ℝ) * b ≤ a := by
    have := (le_div_iff₀ hb).mp hf1
    linarith
  have h2 : a < ((⌊a / b⌋ : ℝ) + 1) * b := by
    have := (div_lt_iff₀ hb).mp hf2
    linarith
  constructor <;> nlinarith

lemma mod_small_nonneg (a b : ℝ) (hb : 0 < b) (ha : 0 ≤ a) (h2 : a < b) : mod a b = a := by
  have hdiv : 0 ≤ a / b := div_nonneg ha hb.le
  have hfl : ⌊a / b⌋ = 0 := by
    rw [Int.floor_eq_zero_iff]
    exact ⟨hdiv, by rw [div_lt_one hb]; exact h2⟩
  unfold mod jsTrunc
  rw [if_pos hdiv, hfl]
  push_cast
  ring

lemma mod_small (a b : ℝ) (hb : 0 < b) (h1 : -b < a) (h2 : a < b) : mod a b = a := by
  rcases le_or_lt 0 a with ha | ha
  · exact mod_small_nonneg a b hb ha h2
  · have h : mod a b = -mod (-a) b := by
      rw [← mod_neg_left, neg_neg]
    rw [h, mod_small_nonneg (-a) b hb (by linarith) (by linarith)]
    ring

lemma mod_eval_floor (a b : ℝ) (k : ℤ) (h0 : 0 ≤ a / b) (h1 : (k : ℝ) ≤ a / b)
    (h2 : a / b < (k : ℝ) + 1) : mod a b = a - b * (k : ℝ) := by
  have hfl : ⌊a / b⌋ = k := by
    rw [Int.floor_eq_iff]
    · exact ⟨h1, by exact_mod_cast h2⟩
  unfold mod jsTrunc
  rw [if_pos h0, hfl]

/-! Helper lemmas: the date model. -/

lemma fdiv_day (a : ℤ) : Int.fdiv a 86400000 = a / 86400000 :=
  Int.fdiv_eq_ediv a (by norm_num)

lemma fdiv_hour (a : ℤ) : Int.fdiv a 3600000 = a / 3600000 :=
  Int.fdiv_eq_ediv a (by norm_num)

lemma fdiv_minute (a : ℤ) : Int.fdiv a 60000 = a / 60000 :=
  Int.fdiv_eq_ediv a (by norm_num)

lemma fdiv_second (a : ℤ) : Int.fdiv a 1000 = a / 1000 :=
  Int.fdiv_eq_ediv a (by norm_num)

lemma getHours_setHours (d : JsDate) (H : ℤ) : getHours (setHours d H) = H % 24 := by
  simp only [getHours, setHours, dayNumber, minFromTime, secFromTime, msFromTime,
    fdiv_day, fdiv_hour, fdiv_minute, fdiv_second]
  omega

lemma dayNumber_setHours (d : JsDate) (H : ℤ) (h0 : 0 ≤ H) (h1 : H < 24) :
    dayNumber (setHours d H) = dayNumber d := by
  simp only [getHours, setHours, dayNumber, minFromTime, secFromTime, msFromTime,
    fdiv_day, fdiv_hour, fdiv_minute, fdiv_second]
  omega

lemma getHours_createDateWithHour (d : JsDate) (h : ℤ) (h0 : 0 ≤ h) (h1 : h < 24) :
    getHours (createDateWithHour d h) = h := by
  simp only [getHours, createDateWithHour, dayNumber, fdiv_day, fdiv_hour]
  omega

lemma dayNumber_createDateWithHour (d : JsDate) (h : ℤ) (h0 : 0 ≤ h) (h1 : h < 24) :
    dayNumber (createDateWithHour d h) = dayNumber d := by
  simp only [createDateWithHour, dayNumber, fdiv_day]
  omega

lemma minFromTime_createDateWithHour (d : JsDate) (h : ℤ) :
    minFromTime (createDateWithHour d h) = 0 := by
  simp only [minFromTime, createDateWithHour, dayNumber, fdiv_day, fdiv_minute]
  omega

lemma secFromTime_createDateWithHour (d : JsDate) (h : ℤ) :
    secFromTime (createDateWithHour d h) = 0 := by
  simp only [secFromTime, createDateWithHour, dayNumber, fdiv_day, fdiv_second]
  omega

lemma msFromTime_createDateWithHour (d : JsDate) (h : ℤ) :
    msFromTime (createDateWithHour d h) = 0 := by
  simp only [msFromTime, createDateWithHour, dayNumber, fdiv_day]
  omega

lemma getHours_setDatePlusDays (d : JsDate) (n : ℤ) :
    getHours (setDatePlusDays d n) = getHours d := by
  simp only [getHours, setDatePlusDays, fdiv_hour]
  omega

lemma dayNumber_setDatePlusDays (d : JsDate) (n : ℤ) :
    dayNumber (setDatePlusDays d n) = dayNumber d + n := by
  simp only [dayNumber, setDatePlusDays, fdiv_day]
  omega

/-! Helper lemmas: degree trigonometry at special angles. -/

lemma sind_zero : sind 0 = 0 := by simp [sind]

lemma cosd_zero : cosd 0 = 1 := by simp [cosd]

lemma asind_zero : asind 0 = 0 := by simp [asind]

lemma sind_ninety : sind 90 = 1 := by
  unfold sind
  rw [show (90 : ℝ) * Real.pi / 180 = Real.pi / 2 by ring, Real.sin_pi_div_two]

lemma cosd_ninety : cosd 90 = 0 := by
  unfold cosd
  rw [show (90 : ℝ) * Real.pi / 180 = Real.pi / 2 by ring, Real.cos_pi_div_two]

lemma atan2_neg_one_zero : atan2 (-1) 0 = -(Real.pi / 2) := by
  have h : (⟨0, -1⟩ : ℂ) = -Complex.I := by
    apply Complex.ext <;> simp
  unfold atan2
  rw [h, Complex.arg_neg_I]

lemma atan2_mem_Ioc (y x : ℝ) : -Real.pi < atan2 y x ∧ atan2 y x ≤ Real.pi :=
  Complex.arg_mem_Ioc ⟨x, y⟩

lemma asind_bounds (x : ℝ) : -90 ≤ asind x ∧ asind x ≤ 90 := by
  have hpi := Real.pi_pos
  have h := Real.arcsin_mem_Icc x
  rw [Set.mem_Icc] at h
  unfold asind
  constructor
  · rw [le_div_iff₀ hpi]
    nlinarith [h.1]
  · rw [div_le_iff₀ hpi]
    nlinarith [h.2]

/-! Helper lemmas: concrete evaluation of the GMST pipeline at the epoch
instant (time value 0) and at time value 1000000000000. -/

lemma gmstRaw_epoch : gmstRaw ⟨0⟩ = -(9492527448870702726 : ℝ) / 10000000000 := by
  norm_num [gmstRaw, getJulian]

lemma gmstFirstReduction_epoch :
    gmstFirstReduction ⟨0⟩ = -(623448870702726 : ℝ) / 10000000000 := by
  unfold gmstFirstReduction
  rw [gmstRaw_epoch]
  rw [show (86400 : ℝ) * (-(9492527448870702726 : ℝ) / 10000000000 /
      |(-(9492527448870702726 : ℝ) / 10000000000)|) = -86400 by
    rw [abs_of_neg (by norm_num)]
    norm_num]
  rw [mod_eval_floor _ _ 10986 (by norm_num) (by norm_num) (by norm_num)]
  norm_num

lemma thetaGMST_epoch : thetaGMST ⟨0⟩ = -(623448870702726 : ℝ) / 2400000000000 := by
  unfold thetaGMST
  rw [gmstFirstReduction_epoch]
  rw [show -(623448870702726 : ℝ) / 10000000000 / 240 =
      -(623448870702726 : ℝ) / 2400000000000 by norm_num]
  exact mod_small _ _ (by norm_num) (by norm_num) (by norm_num)

lemma radecCounterexampleEval :
    RaDec2AzEl (-(839448870702726 : ℝ) / 2400000000000) 0 0 0 ⟨0⟩ =
      ⟨-90, 0⟩ := by
  unfold RaDec2AzEl
  have hLHA : mod (thetaGMST ⟨0⟩ + 0 - -(839448870702726 : ℝ) / 2400000000000) 360 = 90 := by
    rw [thetaGMST_epoch]
    rw [show -(623448870702726 : ℝ) / 2400000000000 + 0 -
        -(839448870702726 : ℝ) / 2400000000000 = 90 by norm_num]
    exact mod_small _ _ (by norm_num) (by norm_num) (by norm_num)
  simp only [hLHA, sind_zero, cosd_zero, sind_ninety, cosd_ninety]
  rw [show (0 : ℝ) * 0 + 1 * 1 * 0 = 0 by ring, asind_zero]
  simp only [sind_zero, cosd_zero]
  rw [show -(1 : ℝ) * 1 / 1 = -1 by ring, show ((0 : ℝ) - 0 * 0) / (1 * 1) = 0 by ring]
  rw [atan2_neg_one_zero]
  have hdeg : -(Real.pi / 2) * (180 / Real.pi) = -90 := by
    field_simp
    ring
  rw [hdeg, mod_small _ _ (by norm_num) (by norm_num) (by norm_num)]

/-! Helper lemmas: the time-series generators. -/

lemma nighttime_map_time (obj : Celestial) (start : JsDate) :
    (generateNighttimePositionData obj start).map PositionSample.time =
      (generateNighttimeDates start).map getHours := by
  unfold generateNighttimePositionData
  rw [List.map_map]
  rfl

lemma custom_map_time (obj : Celestial) (start : JsDate) (s e : ℤ) :
    (generateCustomTimePositionData obj start s e).map PositionSample.time =
      (generateCustomTimeDates start s e).map getHours := by
  unfold generateCustomTimePositionData
  rw [List.map_map]
  rfl

lemma custom_length_eq (obj : Celestial) (start : JsDate) (s e : ℤ) :
    (generateCustomTimePositionData obj start s e).length =
      (generateCustomTimeDates start s e).length := by
  unfold generateCustomTimePositionData
  rw [List.length_map]

/-- C1: for every RA, Dec, latitude, longitude and instant, RaDec2AzEl computes
its result by exactly the reference composition (JD, T, the GMST seconds
polynomial, the two-step sign-aware normalization, LST, LHA, elevation and
azimuth formulas), operation for operation. -/
theorem c1_radec2azel_matches_reference :
    ∀ (Ra Dec lat lon : ℝ) (dateObj : JsDate),
      RaDec2AzEl Ra Dec lat lon dateObj = RaDec2AzElRef Ra Dec lat lon dateObj :=
  fun _ _ _ _ _ => rfl

/-- C2 (amended): for every non-degenerate input (latitude not plus or minus
90 and elevation not exactly plus or minus 90), the result of RaDec2AzEl has
elevation in the interval from -90 to 90 and azimuth in the interval from
-180 exclusive to 180 inclusive (NOT the claimed interval from 0 inclusive to
360 exclusive: the remainder of the atan2 degrees keeps the dividend sign). -/
theorem c2_output_ranges (Ra Dec lat lon : ℝ) (d : JsDate)
    (hlat1 : lat ≠ 90) (hlat2 : lat ≠ -90)
    (hel1 : (RaDec2AzEl Ra Dec lat lon d).el ≠ 90)
    (hel2 : (RaDec2AzEl Ra Dec lat lon d).el ≠ -90) :
    -90 ≤ (RaDec2AzEl Ra Dec lat lon d).el ∧ (RaDec2AzEl Ra Dec lat lon d).el ≤ 90 ∧
      -180 < (RaDec2AzEl Ra Dec lat lon d).az ∧ (RaDec2AzEl Ra Dec lat lon d).az ≤ 180 := by
  have hel : (RaDec2AzEl Ra Dec lat lon d).el =
      asind (sind lat * sind Dec + cosd lat * cosd Dec *
        cosd (mod (thetaGMST d + lon - Ra) 360)) := rfl
  have hbounds := asind_bounds (sind lat * sind Dec + cosd lat * cosd Dec *
    cosd (mod (thetaGMST d + lon - Ra) 360))
  refine ⟨by rw [hel]; exact hbounds.1, by rw [hel]; exact hbounds.2, ?_, ?_⟩ <;>
  · have hpi := Real.pi_pos
    have haz : (RaDec2AzEl Ra Dec lat lon d).az = mod
        (atan2 (-sind (mod (thetaGMST d + lon - Ra) 360) * cosd Dec /
            cosd ((RaDec2AzEl Ra Dec lat lon d).el))
          ((sind Dec - sind ((RaDec2AzEl Ra Dec lat lon d).el) * sind lat) /
            (cosd ((RaDec2AzEl Ra Dec lat lon d).el) * cosd lat)) *
          (180 / Real.pi))
        360 := rfl
    set t := atan2 (-sind (mod (thetaGMST d + lon - Ra) 360) * cosd Dec /
        cosd ((RaDec2AzEl Ra Dec lat lon d).el))
      ((sind Dec - sind ((RaDec2AzEl Ra Dec lat lon d).el) * sind lat) /
        (cosd ((RaDec2AzEl Ra Dec lat lon d).el) * cosd lat)) with ht
    have hrng := atan2_mem_Ioc (-sind (mod (thetaGMST d + lon - Ra) 360) * cosd Dec /
        cosd ((RaDec2AzEl Ra Dec lat lon d).el))
      ((sind Dec - sind ((RaDec2AzEl Ra Dec lat lon d).el) * sind lat) /
        (cosd ((RaDec2AzEl Ra Dec lat lon d).el) * cosd lat))
    rw [← ht] at hrng
    have hfrac : Real.pi * (180 / Real.pi) = 180 := by
      field_simp
    have hub : t * (180 / Real.pi) ≤ 180 := by
      calc t * (180 / Real.pi) ≤ Real.pi * (180 / Real.pi) :=
            mul_le_mul_of_nonneg_right hrng.2 (by positivity)
        _ = 180 := hfrac
    have hlb : -180 < t * (180 / Real.pi) := by
      have h1 : -Real.pi * (180 / Real.pi) < t * (180 / Real.pi) :=
        mul_lt_mul_of_pos_right hrng.1 (by positivity)
      have h2 : -Real.pi * (180 / Real.pi) = -180 := by
        field_simp
        ring
      linarith
    have hm : mod (t * (180 / Real.pi)) 360 = t * (180 / Real.pi) :=
      mod_small _ _ (by norm_num) (by linarith) (by linarith)
    rw [haz, hm]
    first
      | exact hlb
      | exact hub

/-- C2 counterexample: a non-degenerate input (latitude 0, elevation exactly
0) at which the azimuth returned by RaDec2AzEl is -90, which is not inside
the interval from 0 inclusive to 360 exclusive claimed by the spec. -/
theorem c2_counterexample :
    (RaDec2AzEl (-(839448870702726 : ℝ) / 2400000000000) 0 0 0 ⟨0⟩).el = 0 ∧
      (RaDec2AzEl (-(839448870702726 : ℝ) / 2400000000000) 0 0 0 ⟨0⟩).az = -90 ∧
      ¬ (0 ≤ (RaDec2AzEl (-(839448870702726 : ℝ) / 2400000000000) 0 0 0 ⟨0⟩).az ∧
        (RaDec2AzEl (-(839448870702726 : ℝ) / 2400000000000) 0 0 0 ⟨0⟩).az < 360) := by
  rw [radecCounterexampleEval]
  norm_num

/-- C2 witness: the amended range theorem applied at a concrete
non-degenerate input. -/
theorem c2_output_ranges_witness :
    -90 ≤ (RaDec2AzEl (-(839448870702726 : ℝ) / 2400000000000) 0 0 0 ⟨0⟩).el ∧
      (RaDec2AzEl (-(839448870702726 : ℝ) / 2400000000000) 0 0 0 ⟨0⟩).el ≤ 90 ∧
      -180 < (RaDec2AzEl (-(839448870702726 : ℝ) / 2400000000000) 0 0 0 ⟨0⟩).az ∧
      (RaDec2AzEl (-(839448870702726 : ℝ) / 2400000000000) 0 0 0 ⟨0⟩).az ≤ 180 :=
  c2_output_ranges (-(839448870702726 : ℝ) / 2400000000000) 0 0 0 ⟨0⟩
    (by norm_num) (by norm_num)
    (by rw [radecCounterexampleEval]; norm_num)
    (by rw [radecCounterexampleEval]; norm_num)

/-- C3 (amended): the first, sign-aware reduction of the GMST normalization
returns a value with the same sign as the raw polynomial value: it lies in
the interval from 0 inclusive to 86400 exclusive when the raw value is
positive, but in the interval from -86400 exclusive to 0 inclusive when the
raw value is negative — it does NOT always land in the non-negative range. -/
theorem c3_first_reduction_sign (d : JsDate) :
    (0 < gmstRaw d → 0 ≤ gmstFirstReduction d ∧ gmstFirstReduction d < 86400) ∧
      (gmstRaw d < 0 → -86400 < gmstFirstReduction d ∧ gmstFirstReduction d ≤ 0) := by
  constructor
  · intro hpos
    have hdiv : gmstRaw d / |gmstRaw d| = 1 := by
      rw [abs_of_pos hpos, div_self (ne_of_gt hpos)]
    unfold gmstFirstReduction
    rw [hdiv, mul_one]
    exact mod_nonneg_bounds _ _ hpos.le (by norm_num)
  · intro hneg
    have hdiv : gmstRaw d / |gmstRaw d| = -1 := by
      rw [abs_of_neg hneg, div_neg, div_self (ne_of_lt hneg)]
    unfold gmstFirstReduction
    rw [hdiv, show (86400 : ℝ) * (-1) = -86400 by norm_num, mod_neg_divisor]
    have h2 : mod (gmstRaw d) 86400 = -mod (-gmstRaw d) 86400 := by
      rw [← mod_neg_left, neg_neg]
    have h3 := mod_nonneg_bounds (-gmstRaw d) 86400 (by linarith) (by norm_num)
    rw [h2]
    constructor <;> linarith [h3.1, h3.2]

/-- C3 counterexample: at the epoch instant (time value 0) the raw GMST value
is nonzero (negative) and the first reduction is negative, contradicting the
claim that it always lands in the non-negative range. -/
theorem c3_counterexample :
    gmstRaw ⟨0⟩ ≠ 0 ∧ gmstFirstReduction ⟨0⟩ < 0 := by
  rw [gmstRaw_epoch, gmstFirstReduction_epoch]
  norm_num

/-- C3 witness: the amended sign theorem applied at concrete instants on both
sides of the sign crossing. -/
theorem c3_first_reduction_sign_witness :
    (0 ≤ gmstFirstReduction ⟨1000000000000⟩ ∧ gmstFirstReduction ⟨1000000000000⟩ < 86400) ∧
      (-86400 < gmstFirstReduction ⟨0⟩ ∧ gmstFirstReduction ⟨0⟩ ≤ 0) := by
  refine ⟨(c3_first_reduction_sign ⟨1000000000000⟩).1 ?_,
    (c3_first_reduction_sign ⟨0⟩).2 ?_⟩
  · norm_num [gmstRaw, getJulian]
  · rw [gmstRaw_epoch]
    norm_num

/-- C6: getJulian is exactly epoch milliseconds divided by 86400000 plus
2440587.5, maps the epoch instant 1970-01-01T00:00:00Z to 2440587.5, and is
monotonically non-decreasing in time. -/
theorem c6_julian_date (d e : JsDate) (h : d.ms ≤ e.ms) :
    getJulian d = (d.ms : ℝ) / 86400000 + 2440587.5 ∧
      getJulian ⟨0⟩ = 2440587.5 ∧
      getJulian d ≤ getJulian e := by
  refine ⟨rfl, by norm_num [getJulian], ?_⟩
  unfold getJulian
  have hcast : (d.ms : ℝ) ≤ (e.ms : ℝ) := by exact_mod_cast h
  have hdiv : (d.ms : ℝ) / 86400000 ≤ (e.ms : ℝ) / 86400000 := by gcongr
  linarith

/-- C6 witness: the getJulian contract applied at the epoch instant and one
day later. -/
theorem c6_julian_date_witness :
    getJulian ⟨0⟩ = ((0 : ℤ) : ℝ) / 86400000 + 2440587.5 ∧
      getJulian ⟨0⟩ = 2440587.5 ∧
      getJulian ⟨0⟩ ≤ getJulian ⟨86400000⟩ :=
  c6_julian_date ⟨0⟩ ⟨86400000⟩ (by norm_num)

/-- C8: hmsToDeg and dmsToDeg compute exactly the stated formulas with no
validation, and in particular hmsToDeg(20, 35, 25) = 14825/48 =
308.85416... and dmsToDeg(60, 14, 47) = 216887/3600 = 60.246388.... -/
theorem c8_angle_format :
    (∀ h m s : ℝ, hmsToDeg h m s = (h + m / 60 + s / 3600) * 15) ∧
      (∀ d m s : ℝ, dmsToDeg d m s = d + m / 60 + s / 3600) ∧
      hmsToDeg 20 35 25 = 14825 / 48 ∧
      dmsToDeg 60 14 47 = 216887 / 3600 := by
  refine ⟨fun h m s => by unfold hmsToDeg; ring, fun d m s => rfl, ?_, ?_⟩
  · unfold hmsToDeg
    norm_num
  · unfold dmsToDeg
    norm_num

/-- C10: for nonzero x the sign-aware divisor is a no-op — the JS remainder
of x by 86400 times the sign of x equals the remainder of x by plain 86400 —
and consequently, whenever the raw GMST value is nonzero, RaDec2AzEl equals
the simplified variant that reduces the raw value modulo plain 86400. -/
theorem c10_sign_divisor_noop :
    (∀ x : ℝ, x ≠ 0 → mod x (86400 * (x / |x|)) = mod x 86400) ∧
      (∀ (Ra Dec lat lon : ℝ) (d : JsDate), gmstRaw d ≠ 0 →
        RaDec2AzEl Ra Dec lat lon d = RaDec2AzElSimplified Ra Dec lat lon d) := by
  have key : ∀ x : ℝ, x ≠ 0 → mod x (86400 * (x / |x|)) = mod x 86400 := by
    intro x hx
    rcases lt_or_gt_of_ne hx with h | h
    · rw [show (86400 : ℝ) * (x / |x|) = -86400 by
        rw [abs_of_neg h]
        field_simp]
      exact mod_neg_divisor x 86400
    · rw [abs_of_pos h, div_self hx, mul_one]
  refine ⟨key, fun Ra Dec lat lon d hraw => ?_⟩
  have hGMST : thetaGMST d = thetaGMSTSimplified d := by
    unfold thetaGMST thetaGMSTSimplified gmstFirstReduction
    rw [key (gmstRaw d) hraw]
  unfold RaDec2AzEl RaDec2AzElSimplified
  rw [hGMST]

/-- C10 witness: the no-op equality applied at the concrete nonzero value -1,
and the transform equivalence applied at a concrete instant whose raw GMST
value is nonzero. -/
theorem c10_sign_divisor_noop_witness :
    mod (-1) (86400 * ((-1) / |(-1 : ℝ)|)) = mod (-1) 86400 ∧
      RaDec2AzEl 0 0 0 0 ⟨0⟩ = RaDec2AzElSimplified 0 0 0 0 ⟨0⟩ :=
  ⟨c10_sign_divisor_noop.1 (-1) (by norm_num),
    c10_sign_divisor_noop.2 0 0 0 0 ⟨0⟩ (by rw [gmstRaw_epoch]; norm_num)⟩

/-- C7: for every celestial object and start instant, generatePositionData
returns exactly 24 samples, one per hour offset 0 through 23 added to the
start instant's hour field (a setHours field increment, not wall-clock
addition), in that order. -/
theorem c7_full_day_series (obj : Celestial) (start : JsDate) :
    (generatePositionData obj start).length = 24 ∧
      generatePositionData obj start = (List.range 24).map
        (fun h => calculatePositionAtTime (setHours start (getHours start + (h : ℤ))) obj) := by
  constructor
  · unfold generatePositionData generateHourlyDates
    rw [List.length_map, List.length_map, List.length_range]
  · unfold generatePositionData generateHourlyDates
    rw [List.map_map]
    rfl

/-- C4 (amended): generateNighttimePositionData always returns exactly 12
samples; when the start instant's hour-of-day field is 0, the generated
instants are hours 18 through 23 on the start date followed by hours 0
through 5 on the following calendar date, with hour labels
18,19,20,21,22,23,0,1,2,3,4,5 in that order.  (For a general start instant
the code adds 18..23 and 0..5 to the start instant's hour field, so the
claimed absolute hours and labels hold only for hour-0 start instants.) -/
theorem c4_nighttime_series (obj : Celestial) (start : JsDate)
    (hstart : getHours start = 0) :
    (∀ (o : Celestial) (st : JsDate), (generateNighttimePositionData o st).length = 12) ∧
      (generateNighttimeDates start).map getHours =
        [18, 19, 20, 21, 22, 23, 0, 1, 2, 3, 4, 5] ∧
      (generateNighttimeDates start).map dayNumber =
        [dayNumber start, dayNumber start, dayNumber start, dayNumber start, dayNumber start,
          dayNumber start, dayNumber start + 1, dayNumber start + 1, dayNumber start + 1,
          dayNumber start + 1, dayNumber start + 1, dayNumber start + 1] ∧
      (generateNighttimePositionData obj start).map PositionSample.time =
        [18, 19, 20, 21, 22, 23, 0, 1, 2, 3, 4, 5] := by
  have hd1h : getHours (setDatePlusDays start 1) = 0 := by
    rw [getHours_setDatePlusDays, hstart]
  have hlabel : ∀ k : ℤ, 0 ≤ k → k < 24 → getHours (addTime k start) = k := by
    intro k h0 h1
    unfold addTime
    rw [getHours_setHours, hstart]
    omega
  have hlabel1 : ∀ k : ℤ, 0 ≤ k → k < 24 →
      getHours (addTime k (setDatePlusDays start 1)) = k := by
    intro k h0 h1
    unfold addTime
    rw [getHours_setHours, hd1h]
    omega
  have hday : ∀ k : ℤ, 0 ≤ k → k < 24 → dayNumber (addTime k start) = dayNumber start := by
    intro k h0 h1
    unfold addTime
    rw [hstart, dayNumber_setHours start (0 + k) (by omega) (by omega)]
  have hday1 : ∀ k : ℤ, 0 ≤ k → k < 24 →
      dayNumber (addTime k (setDatePlusDays start 1)) = dayNumber start + 1 := by
    intro k h0 h1
    unfold addTime
    rw [hd1h, dayNumber_setHours _ (0 + k) (by omega) (by omega), dayNumber_setDatePlusDays]
  have hhours : (generateNighttimeDates start).map getHours =
      [18, 19, 20, 21, 22, 23, 0, 1, 2, 3, 4, 5] := by
    show [getHours (addTime 18 start), getHours (addTime 19 start),
      getHours (addTime 20 start), getHours (addTime 21 start),
      getHours (addTime 22 start), getHours (addTime 23 start),
      getHours (addTime 0 (setDatePlusDays start 1)),
      getHours (addTime 1 (setDatePlusDays start 1)),
      getHours (addTime 2 (setDatePlusDays start 1)),
      getHours (addTime 3 (setDatePlusDays start 1)),
      getHours (addTime 4 (setDatePlusDays start 1)),
      getHours (addTime 5 (setDatePlusDays start 1))] = _
    rw [hlabel 18 (by norm_num) (by norm_num), hlabel 19 (by norm_num) (by norm_num),
      hlabel 20 (by norm_num) (by norm_num), hlabel 21 (by norm_num) (by norm_num),
      hlabel 22 (by norm_num) (by norm_num), hlabel 23 (by norm_num) (by norm_num),
      hlabel1 0 (by norm_num) (by norm_num), hlabel1 1 (by norm_num) (by norm_num),
      hlabel1 2 (by norm_num) (by norm_num), hlabel1 3 (by norm_num) (by norm_num),
      hlabel1 4 (by norm_num) (by norm_num), hlabel1 5 (by norm_num) (by norm_num)]
  refine ⟨?_, hhours, ?_, ?_⟩
  · intro o st
    unfold generateNighttimePositionData generateNighttimeDates
    rw [List.length_map, List.length_append, List.length_map, List.length_map,
      List.length_range', List.length_range]
  · show [dayNumber (addTime 18 start), dayNumber (addTime 19 start),
      dayNumber (addTime 20 start), dayNumber (addTime 21 start),
      dayNumber (addTime 22 start), dayNumber (addTime 23 start),
      dayNumber (addTime 0 (setDatePlusDays start 1)),
      dayNumber (addTime 1 (setDatePlusDays start 1)),
      dayNumber (addTime 2 (setDatePlusDays start 1)),
      dayNumber (addTime 3 (setDatePlusDays start 1)),
      dayNumber (addTime 4 (setDatePlusDays start 1)),
      dayNumber (addTime 5 (setDatePlusDays start 1))] = _
    rw [hday 18 (by norm_num) (by norm_num), hday 19 (by norm_num) (by norm_num),
      hday 20 (by norm_num) (by norm_num), hday 21 (by norm_num) (by norm_num),
      hday 22 (by norm_num) (by norm_num), hday 23 (by norm_num) (by norm_num),
      hday1 0 (by norm_num) (by norm_num), hday1 1 (by norm_num) (by norm_num),
      hday1 2 (by norm_num) (by norm_num), hday1 3 (by norm_num) (by norm_num),
      hday1 4 (by norm_num) (by norm_num), hday1 5 (by norm_num) (by norm_num)]
  · rw [nighttime_map_time]
    exact hhours

/-- C4 counterexample: for a start instant whose hour field is 1 (time value
3600000), the nighttime series hour labels are 19,...,23,0,1,...,6 — not the
claimed 18,...,23,0,...,5 — because the code adds 18..23 and 0..5 to the
start instant's hour field instead of setting those hours. -/
theorem c4_counterexample :
    (generateNighttimePositionData ⟨0, 0⟩ ⟨3600000⟩).map PositionSample.time =
        [19, 20, 21, 22, 23, 0, 1, 2, 3, 4, 5, 6] ∧
      (generateNighttimePositionData ⟨0, 0⟩ ⟨3600000⟩).map PositionSample.time ≠
        [18, 19, 20, 21, 22, 23, 0, 1, 2, 3, 4, 5] := by
  rw [nighttime_map_time]
  constructor
  · decide
  · decide

/-- C4 witness: the amended nighttime-series theorem applied at the epoch
start instant, whose hour field is 0. -/
theorem c4_nighttime_series_witness :
    (∀ (o : Celestial) (st : JsDate), (generateNighttimePositionData o st).length = 12) ∧
      (generateNighttimeDates ⟨0⟩).map getHours =
        [18, 19, 20, 21, 22, 23, 0, 1, 2, 3, 4, 5] ∧
      (generateNighttimeDates ⟨0⟩).map dayNumber =
        [dayNumber ⟨0⟩, dayNumber ⟨0⟩, dayNumber ⟨0⟩, dayNumber ⟨0⟩, dayNumber ⟨0⟩,
          dayNumber ⟨0⟩, dayNumber ⟨0⟩ + 1, dayNumber ⟨0⟩ + 1, dayNumber ⟨0⟩ + 1,
          dayNumber ⟨0⟩ + 1, dayNumber ⟨0⟩ + 1, dayNumber ⟨0⟩ + 1] ∧
      (generateNighttimePositionData ⟨0, 0⟩ ⟨0⟩).map PositionSample.time =
        [18, 19, 20, 21, 22, 23, 0, 1, 2, 3, 4, 5] :=
  c4_nighttime_series ⟨0, 0⟩ ⟨0⟩ (by decide)

/-- C5: for hour bounds in 0..23, generateCustomTimePositionData samples every
integer hour from startHour to endHour inclusive on the start date when
startHour is at most endHour, and otherwise hours startHour..23 on the start
date followed by 0..endHour on the following date; every generated instant
has its hour field set directly with minutes, seconds and milliseconds
zeroed; in particular (date, 19, 4) yields the 10 labels 19,...,23,0,...,4
and (date, 8, 18) yields the 11 labels 8 through 18. -/
theorem c5_custom_series (obj : Celestial) (start : JsDate) (s e : ℤ)
    (hs0 : 0 ≤ s) (hs1 : s ≤ 23) (he0 : 0 ≤ e) (he1 : e ≤ 23) :
    (s ≤ e →
      (generateCustomTimePositionData obj start s e).length = (e - s + 1).toNat ∧
      (generateCustomTimePositionData obj start s e).map PositionSample.time =
        (List.range (e - s + 1).toNat).map (fun (i : ℕ) => s + (i : ℤ)) ∧
      (generateCustomTimeDates start s e).map dayNumber =
        List.replicate (e - s + 1).toNat (dayNumber start)) ∧
    (e < s →
      (generateCustomTimePositionData obj start s e).length =
        (24 - s).toNat + (e + 1).toNat ∧
      (generateCustomTimePositionData obj start s e).map PositionSample.time =
        (List.range (24 - s).toNat).map (fun (i : ℕ) => s + (i : ℤ)) ++
          (List.range (e + 1).toNat).map (fun (i : ℕ) => (i : ℤ)) ∧
      (generateCustomTimeDates start s e).map dayNumber =
        List.replicate (24 - s).toNat (dayNumber start) ++
          List.replicate (e + 1).toNat (dayNumber start + 1)) ∧
    (∀ d ∈ generateCustomTimeDates start s e,
      minFromTime d = 0 ∧ secFromTime d = 0 ∧ msFromTime d = 0) ∧
    (generateCustomTimePositionData obj ⟨0⟩ 19 4).map PositionSample.time =
      [19, 20, 21, 22, 23, 0, 1, 2, 3, 4] ∧
    (generateCustomTimePositionData obj ⟨0⟩ 19 4).length = 10 ∧
    (generateCustomTimePositionData obj ⟨0⟩ 8 18).map PositionSample.time =
      [8, 9, 10, 11, 12, 13, 14, 15, 16, 17, 18] ∧
    (generateCustomTimePositionData obj ⟨0⟩ 8 18).length = 11 := by
  have hsame_map : s ≤ e → (generateCustomTimeDates start s e).map getHours =
      (List.range (e - s + 1).toNat).map fun (i : ℕ) => s + (i : ℤ) := by
    intro h
    unfold generateCustomTimeDates
    rw [if_pos h, List.map_map]
    apply List.map_congr_left
    intro i hi
    rw [List.mem_range] at hi
    simp only [Function.comp_apply]
    exact getHours_createDateWithHour start (s + i) (by omega) (by omega)
  have hsame_day : s ≤ e → (generateCustomTimeDates start s e).map dayNumber =
      List.replicate (e - s + 1).toNat (dayNumber start) := by
    intro h
    unfold generateCustomTimeDates
    rw [if_pos h, List.map_map, List.eq_replicate_iff]
    constructor
    · rw [List.length_map, List.length_range]
    · intro b hb
      rw [List.mem_map] at hb
      obtain ⟨i, hi, rfl⟩ := hb
      rw [List.mem_range] at hi
      simp only [Function.comp_apply]
      exact dayNumber_createDateWithHour start (s + i) (by omega) (by omega)
  have hcross_map : e < s → (generateCustomTimeDates start s e).map getHours =
      (List.range (24 - s).toNat).map (fun (i : ℕ) => s + (i : ℤ)) ++
        (List.range (e + 1).toNat).map (fun (i : ℕ) => (i : ℤ)) := by
    intro h
    unfold generateCustomTimeDates
    rw [if_neg (not_le.mpr h), List.map_append, List.map_map, List.map_map]
    congr 1
    · apply List.map_congr_left
      intro i hi
      rw [List.mem_range] at hi
      simp only [Function.comp_apply]
      exact getHours_createDateWithHour start (s + i) (by omega) (by omega)
    · apply List.map_congr_left
      intro i hi
      rw [List.mem_range] at hi
      simp only [Function.comp_apply]
      exact getHours_createDateWithHour (setDatePlusDays start 1) i (by omega) (by omega)
  have hcross_day : e < s → (generateCustomTimeDates start s e).map dayNumber =
      List.replicate (24 - s).toNat (dayNumber start) ++
        List.replicate (e + 1).toNat (dayNumber start + 1) := by
    intro h
    unfold generateCustomTimeDates
    rw [if_neg (not_le.mpr h), List.map_append, List.map_map, List.map_map]
    congr 1
    · rw [List.eq_replicate_iff]
      constructor
      · rw [List.length_map, List.length_range]
      · intro b hb
        rw [List.mem_map] at hb
        obtain ⟨i, hi, rfl⟩ := hb
        rw [List.mem_range] at hi
        simp only [Function.comp_apply]
        exact dayNumber_createDateWithHour start (s + i) (by omega) (by omega)
    · rw [List.eq_replicate_iff]
      constructor
      · rw [List.length_map, List.length_range]
      · intro b hb
        rw [List.mem_map] at hb
        obtain ⟨i, hi, rfl⟩ := hb
        rw [List.mem_range] at hi
        simp only [Function.comp_apply]
        rw [dayNumber_createDateWithHour (setDatePlusDays start 1) i (by omega) (by omega),
          dayNumber_setDatePlusDays]
  have hzero : ∀ d ∈ generateCustomTimeDates start s e,
      minFromTime d = 0 ∧ secFromTime d = 0 ∧ msFromTime d = 0 := by
    intro d hd
    unfold generateCustomTimeDates at hd
    split_ifs at hd
    · rw [List.mem_map] at hd
      obtain ⟨i, _, rfl⟩ := hd
      exact ⟨minFromTime_createDateWithHour _ _, secFromTime_createDateWithHour _ _,
        msFromTime_createDateWithHour _ _⟩
    · rcases List.mem_append.mp hd with hd1 | hd1 <;>
      · rw [List.mem_map] at hd1
        obtain ⟨i, _, rfl⟩ := hd1
        exact ⟨minFromTime_createDateWithHour _ _, secFromTime_createDateWithHour _ _,
          msFromTime_createDateWithHour _ _⟩
  refine ⟨fun h => ⟨?_, ?_, hsame_day h⟩, fun h => ⟨?_, ?_, hcross_day h⟩, hzero,
    ?_, ?_, ?_, ?_⟩
  · rw [custom_length_eq]
    unfold generateCustomTimeDates
    rw [if_pos h, List.length_map, List.length_range]
  · rw [custom_map_time]
    exact hsame_map h
  · rw [custom_length_eq]
    unfold generateCustomTimeDates
    rw [if_neg (not_le.mpr h), List.length_append, List.length_map, List.length_map,
      List.length_range, List.length_range]
  · rw [custom_map_time]
    exact hcross_map h
  · rw [custom_map_time]
    decide
  · rw [custom_length_eq]
    decide
  · rw [custom_map_time]
    decide
  · rw [custom_length_eq]
    decide

/-- C5 witness: the custom-range theorem applied at a concrete object, the
epoch start date, and the midnight-crossing bounds 19 and 4. -/
theorem c5_custom_series_witness :
    ((19 : ℤ) ≤ 4 →
      (generateCustomTimePositionData ⟨0, 0⟩ ⟨0⟩ 19 4).length = ((4 : ℤ) - 19 + 1).toNat ∧
      (generateCustomTimePositionData ⟨0, 0⟩ ⟨0⟩ 19 4).map PositionSample.time =
        (List.range ((4 : ℤ) - 19 + 1).toNat).map (fun (i : ℕ) => 19 + (i : ℤ)) ∧
      (generateCustomTimeDates ⟨0⟩ 19 4).map dayNumber =
        List.replicate ((4 : ℤ) - 19 + 1).toNat (dayNumber ⟨0⟩)) ∧
    ((4 : ℤ) < 19 →
      (generateCustomTimePositionData ⟨0, 0⟩ ⟨0⟩ 19 4).length =
        ((24 : ℤ) - 19).toNat + ((4 : ℤ) + 1).toNat ∧
      (generateCustomTimePositionData ⟨0, 0⟩ ⟨0⟩ 19 4).map PositionSample.time =
        (List.range ((24 : ℤ) - 19).toNat).map (fun (i : ℕ) => 19 + (i : ℤ)) ++
          (List.range ((4 : ℤ) + 1).toNat).map (fun (i : ℕ) => (i : ℤ)) ∧
      (generateCustomTimeDates ⟨0⟩ 19 4).map dayNumber =
        List.replicate ((24 : ℤ) - 19).toNat (dayNumber ⟨0⟩) ++
          List.replicate ((4 : ℤ) + 1).toNat (dayNumber ⟨0⟩ + 1)) ∧
    (∀ d ∈ generateCustomTimeDates ⟨0⟩ 19 4,
      minFromTime d = 0 ∧ secFromTime d = 0 ∧ msFromTime d = 0) ∧
    (generateCustomTimePositionData ⟨0, 0⟩ ⟨0⟩ 19 4).map PositionSample.time =
      [19, 20, 21, 22, 23, 0, 1, 2, 3, 4] ∧
    (generateCustomTimePositionData ⟨0, 0⟩ ⟨0⟩ 19 4).length = 10 ∧
    (generateCustomTimePositionData ⟨0, 0⟩ ⟨0⟩ 8 18).map PositionSample.time =
      [8, 9, 10, 11, 12, 13, 14, 15, 16, 17, 18] ∧
    (generateCustomTimePositionData ⟨0, 0⟩ ⟨0⟩ 8 18).length = 11 :=
  c5_custom_series ⟨0, 0⟩ ⟨0⟩ 19 4 (by norm_num) (by norm_num) (by norm_num) (by norm_num)

end Starpath
